import Mathlib

/-!
# Verification of the MS school fee-management core

Shallow embedding of the fee/discount/balance computation logic of the MS
repository (a Next.js + Supabase school fee-management app), together with
proofs settling the specification claims about it.

Conventions of the embedding:
* Monetary amounts (JS `number` values holding decimal currency) are `ℚ`.
* Timestamps (`Date.getTime()` milliseconds) are `Int`; `setHours(0,0,0,0)`
  becomes flooring to a multiple of `msPerDay`.
* Ids (uuid strings) are `Nat`; free-text fields are `String`.
* Nullable columns are `Option`; a JS `x || d` default becomes `Option.getD`.
* Supabase tables are Lean lists inside a `Store` structure; a query chain
  `.from(t).select(...).eq(col, v)` becomes a `List.filter` over that list.
  Row ordering (`.order(...)`) is not modelled: no claim depends on it.
-/

/-- One millisecond-resolution timestamp per `Date.getTime()`. -/
abbrev Timestamp := Int

/-- Milliseconds per calendar day. -/
def msPerDay : Int := 86400000

/-- `d.setHours(0,0,0,0)`: floor a timestamp to the start of its day.
`Int.emod` returns a non-negative remainder for a positive modulus, so this
is correct for timestamps before the epoch as well. -/
def startOfDay (t : Timestamp) : Timestamp := t - t % msPerDay

/-- Calendar day index of a timestamp (date-only view of a timestamp). -/
def dayOf (t : Timestamp) : Int := t / msPerDay

/-- Payment row shape selected by the master-ledger page
(`payments (date, amount_paid, mode_of_payment, receipt_number)`),
with `date` already parsed to a timestamp. -/
structure Payment where
  date : Timestamp
  amount_paid : ℚ
  mode_of_payment : String
  receipt_number : String
  deriving Repr, DecidableEq

/-- Joined fee type inside a `student_fee_types` row on the master-ledger
page: `fee_type:fee_types (id, name, default_amount, scheduled_date)`.
`scheduled_date` is the raw nullable column after `new Date(...)` parsing:
`none` = SQL null / empty, `some none` = present but unparseable
(`isNaN(scheduledDate.getTime())`), `some (some t)` = parses to `t`. -/
structure LedgerFeeType where
  id : Nat
  name : String
  default_amount : ℚ
  scheduled_date : Option (Option Timestamp)
  deriving Repr, DecidableEq

/-- A `student_fee_types` row as the master-ledger page sees it:
`{ discount, fee_type }` where the joined `fee_type` may be null. -/
structure Sft where
  discount : Option ℚ
  fee_type : Option LedgerFeeType
  deriving Repr, DecidableEq

/-- `const discount = sft.discount || 0` (master-ledger `fetchStudents`). -/
def Sft.discountVal (sft : Sft) : ℚ := sft.discount.getD 0

/-- `const netFeeAmount = (fee?.default_amount || 0) - discount`. -/
def Sft.netFeeAmount (sft : Sft) : ℚ :=
  (match sft.fee_type with
   | some fee => fee.default_amount
   | none => 0) - sft.discountVal

/-- The contribution of one `student_fee_types` row to
`due_fees_this_moment` in master-ledger `fetchStudents`: the net amount
when the joined fee type exists, has a `scheduled_date`, the date parses,
and the parsed timestamp is `<= today` (the midnight-normalized reference);
`0` otherwise. -/
def dueContribution (today : Timestamp) (sft : Sft) : ℚ :=
  match sft.fee_type with
  | none => 0
  | some fee =>
    match fee.scheduled_date with
    | none => 0
    | some none => 0
    | some (some t) => if t ≤ today then sft.netFeeAmount else 0

/-- `due_fees_this_moment` accumulated over a student's
`student_fee_types` rows, with `today = referenceDate` normalized by
`today.setHours(0,0,0,0)` — the Due-Amount Calculator `computeDue`. -/
def computeDue (sfts : List Sft) (referenceDate : Timestamp) : ℚ :=
  sfts.foldl (fun acc sft => acc + dueContribution (startOfDay referenceDate) sft) 0

/-- Decidable test for the rows `computeDue` actually counts: the joined
fee type exists and its `scheduled_date` parses to `t ≤ startOfDay ref`. -/
def Sft.isDueAt (sft : Sft) (referenceDate : Timestamp) : Bool :=
  match sft.fee_type with
  | none => false
  | some fee =>
    match fee.scheduled_date with
    | none => false
    | some none => false
    | some (some t) => t ≤ startOfDay referenceDate

/-- The spec's own notion of dueness, written from the spec's words:
`scheduled_date` parses to a valid date `≤ referenceDate` under a
*date-only* comparison (time-of-day ignored on both sides). -/
def Sft.isDueAtSpec (sft : Sft) (referenceDate : Timestamp) : Bool :=
  match sft.fee_type with
  | none => false
  | some fee =>
    match fee.scheduled_date with
    | none => false
    | some none => false
    | some (some t) => dayOf t ≤ dayOf referenceDate

/-- `computeDue` as the spec words it: sum of net amounts over the rows
due under the date-only comparison. Defined from the spec, for comparison
with the code's `computeDue`. -/
def computeDueSpec (sfts : List Sft) (referenceDate : Timestamp) : ℚ :=
  ((sfts.filter (fun sft => sft.isDueAtSpec referenceDate)).map Sft.netFeeAmount).sum

/-- The four payment statuses of the ledger pages. -/
inductive Status where
  | paid
  | partially_paid
  | unpaid
  | no_fees_due
  deriving Repr, DecidableEq

/-- `getDynamicStatus` of `sfms 2/app/dashboard/master-ledger/page.tsx`:
`feesToConsider` is the caller-selected basis (total assigned or currently
due), `paid` the student's `totalPaid || 0`. -/
def getDynamicStatus (feesToConsider paid : ℚ) : Status :=
  if feesToConsider ≤ 0 then
    (if paid > 0 then Status.paid else Status.no_fees_due)
  else if paid ≥ feesToConsider then Status.paid
  else if paid > 0 ∧ paid < feesToConsider then Status.partially_paid
  else Status.unpaid

/-- `getDynamicStatus` of the near-duplicate
`stackblitz-starters-uteq2bxv (2) 2/.../master-ledger/page.tsx`, whose
zero test is `feesToConsider <= 0.009`. -/
def getDynamicStatusV2 (feesToConsider paid : ℚ) : Status :=
  if feesToConsider ≤ 9/1000 then
    (if paid > 0 then Status.paid else Status.no_fees_due)
  else if paid ≥ feesToConsider then Status.paid
  else if paid > 0 ∧ paid < feesToConsider then Status.partially_paid
  else Status.unpaid

/-- The Status Classifier as the claim words it, written from the spec:
rules in order with ε = 0.01 on every decimal comparison. For comparison
with the code's `getDynamicStatus`. -/
def classifySpec (basis totalPaid : ℚ) : Status :=
  if basis ≤ 1/100 then
    (if totalPaid > 0 then Status.paid else Status.no_fees_due)
  else if totalPaid ≥ basis - 1/100 then Status.paid
  else if totalPaid > 1/100 then Status.partially_paid
  else Status.unpaid

/-- `totalPaid`: `s.payments?.reduce((sum, p) => sum + p.amount_paid, 0) || 0`
on the master-ledger page. -/
def totalPaidOf (payments : List Payment) : ℚ :=
  payments.foldl (fun sum p => sum + p.amount_paid) 0

/-- `lastPayment` in `handleExport`: when the list is non-empty, sort by
date descending (`(a, b) => b.date - a.date`) and take the first element;
otherwise `null`. -/
def lastPaymentOf (payments : List Payment) : Option Payment :=
  match payments with
  | [] => none
  | _ => (payments.mergeSort (fun a b => decide (b.date ≤ a.date))).head?

/-- Result shape of the Payment Ledger Aggregator. -/
structure AggregateResult where
  totalPaid : ℚ
  lastPayment : Option Payment
  deriving Repr, DecidableEq

/-- `aggregatePayments`: the pair of aggregates the master-ledger page
derives from one student's payment list. -/
def aggregatePayments (payments : List Payment) : AggregateResult :=
  { totalPaid := totalPaidOf payments, lastPayment := lastPaymentOf payments }

/-! ## Student registration page (`src/unnamed/part_000`)

`handleSubmit` is the code behind the spec's Student Fee Assignment
Resolver `resolveAssignments`: it computes `totalFees` from the selected
fee types of the class and builds the `student_fee_types` rows
(`feeLinks`) that replace the student's assignments. -/

/-- Fee type row as the registration page fetches it
(`fee_types: id, name, default_amount`). -/
structure FeeTypeR where
  id : Nat
  name : String
  default_amount : ℚ
  deriving Repr, DecidableEq

/-- One entry of the `feeAdjustments` map:
`{ discount: number; description: string }`. -/
structure Adjustment where
  discount : ℚ
  description : String
  deriving Repr, DecidableEq

/-- The `feeAdjustments` JS object, as an association list keyed by
fee type id. -/
abbrev Adjustments := List (Nat × Adjustment)

/-- `handleDiscountChange`: the stored discount is
`parseFloat(val) || 0` — the parsed number, or `0` when parsing yields
`NaN` (and `0` stays `0`). `val` is the parse result. -/
def handleDiscountChange (val : Option ℚ) : ℚ := val.getD 0

/-- `feeAdjustments[id]?.discount || 0`. -/
def discountFor (adjs : Adjustments) (id : Nat) : ℚ :=
  match adjs.lookup id with
  | some a => a.discount
  | none => 0

/-- `feeAdjustments[id]?.description || null` (a JS `|| null` maps the
empty string to null as well). -/
def descriptionFor (adjs : Adjustments) (id : Nat) : Option String :=
  match adjs.lookup id with
  | some a => if a.description = "" then none else some a.description
  | none => none

/-- `totalFees` in `handleSubmit`:
`filteredFeeTypesForClass.filter(ft => selectedFeeTypeIds.includes(ft.id))
  .reduce((sum, ft) => sum + ft.default_amount - (adj?.discount || 0), 0)`. -/
def totalFeesOf (classFeeTypes : List FeeTypeR) (selectedIds : List Nat)
    (adjs : Adjustments) : ℚ :=
  ((classFeeTypes.filter (fun ft => selectedIds.contains ft.id)).foldl
    (fun sum ft => sum + ft.default_amount - discountFor adjs ft.id) 0)

/-- A `student_fee_types` row as inserted by the two edit flows. The
registration page sets `assigned_amount` and `school_id`; the student
detail page's `handleUpdateStudent` omits both (modelled as `none`). -/
structure FeeLink where
  student_id : Nat
  fee_type_id : Nat
  school_id : Option Nat
  assigned_amount : Option ℚ
  discount : ℚ
  discount_description : Option String
  deriving Repr, DecidableEq

/-- Net amount of an assignment row per the spec's data model:
`assigned_amount − discount` (a missing `assigned_amount` reads as 0,
matching the page's `|| 0` defaults). -/
def FeeLink.net (l : FeeLink) : ℚ := l.assigned_amount.getD 0 - l.discount

/-- The `feeLinks` array built in registration `handleSubmit`:
one row per selected id, with
`assigned_amount = classFeeTypes.find(ft => ft.id === id)?.default_amount || 0`. -/
def mkFeeLinks (studentId schoolId : Nat) (classFeeTypes : List FeeTypeR)
    (selectedIds : List Nat) (adjs : Adjustments) : List FeeLink :=
  selectedIds.map (fun ftId =>
    { student_id := studentId
      fee_type_id := ftId
      school_id := some schoolId
      assigned_amount := some
        (match classFeeTypes.find? (fun ft => ft.id == ftId) with
         | some ft => ft.default_amount
         | none => 0)
      discount := discountFor adjs ftId
      discount_description := descriptionFor adjs ftId })

/-! ## Student detail page (`sfms 2/app/dashboard/student/[studentID]/page.tsx`)

`handleUpdateStudent` recomputes `total_fees` the same way as
registration but inserts `newFeeLinks` rows carrying only
`{student_id, fee_type_id, discount, discount_description}`. -/

/-- `total_fees` in `handleUpdateStudent`:
`applicableFeeTypes = filteredFeeTypesForEdit.filter(ft => selected.includes(ft.id))`
then `reduce((sum, ft) => sum + (ft.default_amount || 0) - discount, 0)`. -/
def detailTotalFees (classFeeTypes : List FeeTypeR) (selectedIds : List Nat)
    (adjs : Adjustments) : ℚ :=
  ((classFeeTypes.filter (fun ft => selectedIds.contains ft.id)).foldl
    (fun sum ft => sum + ft.default_amount - discountFor adjs ft.id) 0)

/-- The `newFeeLinks` array built in `handleUpdateStudent`: no
`assigned_amount` snapshot and no `school_id` on the inserted rows. -/
def mkNewFeeLinksDetail (studentId : Nat) (selectedIds : List Nat)
    (adjs : Adjustments) : List FeeLink :=
  selectedIds.map (fun ftId =>
    { student_id := studentId
      fee_type_id := ftId
      school_id := none
      assigned_amount := none
      discount := discountFor adjs ftId
      discount_description := descriptionFor adjs ftId })

/-! ## Store model

The Supabase tables the pages touch, as plain lists. Queries become
filters; inserts append; updates map over the rows. -/

/-- A `classes` row. -/
structure ClassRow where
  id : Nat
  school_id : Nat
  name : String
  deriving Repr, DecidableEq

/-- A `fee_types` row (`scheduled_date` as in `LedgerFeeType`,
`applicable_from` kept raw). -/
structure FeeTypeRow where
  id : Nat
  school_id : Nat
  name : String
  description : Option String
  default_amount : Option ℚ
  scheduled_date : Option (Option Timestamp)
  applicable_from : Option String
  deriving Repr, DecidableEq

/-- A `fee_type_classes` association row. -/
structure FeeTypeClassRow where
  fee_type_id : Nat
  class_id : Nat
  school_id : Nat
  deriving Repr, DecidableEq

/-- A `students` row (fields the pages read and write). -/
structure StudentRow where
  id : Nat
  school_id : Nat
  name : String
  roll_no : String
  class_id : Nat
  academic_year : String
  total_fees : ℚ
  deriving Repr, DecidableEq

/-- A `payments` row. `school_id` is nullable because the record-payment
page's insert supplies no `school_id` at all. -/
structure PaymentRow where
  id : Nat
  student_id : Nat
  school_id : Option Nat
  date : Timestamp
  amount_paid : ℚ
  mode_of_payment : String
  receipt_number : String
  description : Option String
  deriving Repr, DecidableEq

/-- The backend store: one list per table. -/
structure Store where
  classes : List ClassRow
  fee_types : List FeeTypeRow
  fee_type_classes : List FeeTypeClassRow
  students : List StudentRow
  student_fee_types : List FeeLink
  payments : List PaymentRow
  deriving Repr, DecidableEq

/-! ### Read operations, per page -/

/-- Master-ledger (`sfms 2`) `fetchClasses`:
`supabase.from('classes').select('id, name')` — no `school_id` filter. -/
def masterLedgerFetchClasses (s : Store) : List ClassRow := s.classes

/-- Master-ledger (`sfms 2`) `fetchStudents` base query:
`from('students').select(...)` — no `school_id` filter; every student row
in the store is returned. -/
def masterLedgerFetchStudents (s : Store) : List StudentRow := s.students

/-- Record-payment page, classes dropdown:
`from('classes').select('id,name')` — no `school_id` filter. -/
def recordPaymentFetchClasses (s : Store) : List ClassRow := s.classes

/-- Record-payment page, student list:
`from('students').select('id, name, roll_no, class_id')`, optionally
`.eq('class_id', selectedClass)` — never filtered by `school_id`. -/
def recordPaymentFetchStudents (s : Store) (selectedClass : Option Nat) :
    List StudentRow :=
  match selectedClass with
  | some c => s.students.filter (fun st => st.class_id == c)
  | none => s.students

/-- Registration page `fetchStudentsForSchool`:
`from('students').select(...).eq('school_id', schoolId)`. -/
def fetchStudentsForSchool (s : Store) (schoolId : Nat) : List StudentRow :=
  s.students.filter (fun st => st.school_id == schoolId)

/-- Stackblitz master-ledger `fetchStudentsAndDetails` row selection:
`.eq('school_id', schoolId)` and optionally `.eq('class_id', ...)`. -/
def fetchStudentsAndDetails (s : Store) (schoolId : Nat)
    (selectedClassId : Option Nat) : List StudentRow :=
  match selectedClassId with
  | some c => s.students.filter (fun st => st.school_id == schoolId && st.class_id == c)
  | none => s.students.filter (fun st => st.school_id == schoolId)

/-! ### Write operations -/

/-- Record-payment `handleSubmit` insert:
`from('payments').insert([{ student_id, amount_paid, date, mode_of_payment,
description, receipt_number }])` — note the absence of `school_id`. -/
def recordPaymentInsert (s : Store) (id studentId : Nat) (date : Timestamp)
    (amountPaid : ℚ) (mode receipt : String) (description : Option String) :
    Store :=
  { s with payments := s.payments ++
      [{ id := id, student_id := studentId, school_id := none, date := date
         amount_paid := amountPaid, mode_of_payment := mode
         receipt_number := receipt, description := description }] }

/-- Fee-type management `updateFeeType` (`src/unnamed/part_001`): update
the `fee_types` row with the edited id; no other table is touched. -/
def updateFeeType (s : Store) (ftId : Nat) (name : String)
    (description : Option String) (defaultAmount : Option ℚ)
    (applicableFrom : Option String) : Store :=
  { s with fee_types := s.fee_types.map (fun ft =>
      if ft.id == ftId then
        { ft with name := name, description := description
                  default_amount := defaultAmount
                  applicable_from := applicableFrom }
      else ft) }

/-- Registration `handleSubmit`, edit branch, as a store transformation:
update the student's core row (with the recomputed `total_fees`), delete
the old `student_fee_types` rows
(`.eq('student_id', id).eq('school_id', schoolId)`), insert `feeLinks`. -/
def handleSubmitEdit (s : Store) (editStudentId schoolId : Nat)
    (name rollNo : String) (classId : Nat) (academicYear : String)
    (classFeeTypes : List FeeTypeR) (selectedIds : List Nat)
    (adjs : Adjustments) : Store :=
  let totalFees := totalFeesOf classFeeTypes selectedIds adjs
  { s with
    students := s.students.map (fun st =>
      if st.id == editStudentId && st.school_id == schoolId then
        { st with name := name, roll_no := rollNo, class_id := classId
                  academic_year := academicYear, total_fees := totalFees }
      else st)
    student_fee_types :=
      (s.student_fee_types.filter (fun l =>
        !(l.student_id == editStudentId && l.school_id == some schoolId))) ++
      mkFeeLinks editStudentId schoolId classFeeTypes selectedIds adjs }

/-- Student-detail `handleUpdateStudent` as a store transformation: update
the student row (`.eq('id', studentID)` only) with the recomputed
`total_fees`, delete the old links (`.eq('student_id', studentID)` only),
insert `newFeeLinks`. -/
def handleUpdateStudent (s : Store) (studentID : Nat)
    (name rollNo : String) (classId : Nat) (academicYear : String)
    (classFeeTypes : List FeeTypeR) (selectedIds : List Nat)
    (adjs : Adjustments) : Store :=
  let totalFees := detailTotalFees classFeeTypes selectedIds adjs
  { s with
    students := s.students.map (fun st =>
      if st.id == studentID then
        { st with name := name, roll_no := rollNo, class_id := classId
                  academic_year := academicYear, total_fees := totalFees }
      else st)
    student_fee_types :=
      (s.student_fee_types.filter (fun l => !(l.student_id == studentID))) ++
      mkNewFeeLinksDetail studentID selectedIds adjs }

/-- The net amount rendered per assignment on the student-detail page:
`item.fee_type.default_amount - (item.discount || 0)`, where `fee_type` is
the *current* catalog row joined via `fee_types!inner`. -/
def detailRenderedNet (s : Store) (l : FeeLink) : ℚ :=
  (match s.fee_types.find? (fun ft => ft.id == l.fee_type_id) with
   | some ft => ft.default_amount.getD 0
   | none => 0) - l.discount

/-- Result of the Student Fee Assignment Resolver. -/
structure ResolveResult where
  assignments : List FeeLink
  totalAssigned : ℚ
  deriving Repr, DecidableEq

/-- `resolveAssignments`: the pure computation inside registration
`handleSubmit` — the inserted `feeLinks` together with the `totalFees`
written to `students.total_fees`. It has no failure path: the page
performs no selection or discount validation. -/
def resolveAssignments (studentId schoolId : Nat)
    (classFeeTypes : List FeeTypeR) (selectedIds : List Nat)
    (adjs : Adjustments) : ResolveResult :=
  { assignments := mkFeeLinks studentId schoolId classFeeTypes selectedIds adjs
    totalAssigned := totalFeesOf classFeeTypes selectedIds adjs }

/-- Net amount a selected id resolves to: the snapshot looked up in the
class fee types (`|| 0` when absent) minus its adjustment discount. -/
def selectionNet (classFeeTypes : List FeeTypeR) (adjs : Adjustments) (i : Nat) : ℚ :=
  (match classFeeTypes.find? (fun ft => ft.id == i) with
   | some ft => ft.default_amount
   | none => 0) - discountFor adjs i

/-! ## Concrete sample data

Small closed values used by the counterexample and witness theorems. -/

/-- The spec §8 example catalog: Fee A 5000 and Fee B 2000 linked to the
class. -/
def sampleClassFees : List FeeTypeR :=
  [{ id := 100, name := "Fee A", default_amount := 5000 },
   { id := 200, name := "Fee B", default_amount := 2000 }]

/-- The spec §8 example adjustments: a 500 discount on Fee A. -/
def sampleAdjs : Adjustments := [(100, { discount := 500, description := "sibling" })]

/-- A single catalog fee type of amount 100. -/
def sampleFee : FeeTypeR := { id := 1, name := "Tuition", default_amount := 100 }

/-- An adjustment whose discount 200 exceeds `sampleFee`'s amount 100. -/
def sampleOverAdjs : Adjustments := [(1, { discount := 200, description := "over" })]

/-- A store holding one school-1 student whose single assignment row was
created by the student-detail update flow (so it carries no
`assigned_amount`), against a catalog fee type of amount 100. -/
def sampleStore : Store :=
  { classes := [{ id := 10, school_id := 1, name := "Class 1" }]
    fee_types := [{ id := 1, school_id := 1, name := "Tuition", description := none
                    default_amount := some 100, scheduled_date := none
                    applicable_from := none }]
    fee_type_classes := [{ fee_type_id := 1, class_id := 10, school_id := 1 }]
    students := [{ id := 5, school_id := 1, name := "Asha", roll_no := "7"
                   class_id := 10, academic_year := "2024-2025", total_fees := 100 }]
    student_fee_types := mkNewFeeLinksDetail 5 [1] []
    payments := [] }

/-- `sampleStore` with no assignment rows and `total_fees` 0. -/
def emptyLinksStore : Store :=
  { sampleStore with
    student_fee_types := []
    students := [{ id := 5, school_id := 1, name := "Asha", roll_no := "7"
                   class_id := 10, academic_year := "2024-2025", total_fees := 0 }] }

/-- A store whose only class and only student belong to school 2 — data
another tenant (school 1) must never see. -/
def crossStore : Store :=
  { classes := [{ id := 20, school_id := 2, name := "Other Class" }]
    fee_types := []
    fee_type_classes := []
    students := [{ id := 6, school_id := 2, name := "Eve", roll_no := "9"
                   class_id := 20, academic_year := "2024-2025", total_fees := 0 }]
    student_fee_types := []
    payments := [] }

/-- A ledger row with net 75 scheduled exactly at the midnight of day 1. -/
def sampleTermRow : Sft :=
  { discount := some 5
    fee_type := some { id := 2, name := "Term", default_amount := 80
                       scheduled_date := some (some 86400000) } }

/-- A ledger row whose fee has net 50 and a `scheduled_date` parsing to
1 ms past the midnight of day 0. -/
def sampleMorningRow : Sft :=
  { discount := none
    fee_type := some { id := 1, name := "Fee A", default_amount := 50
                       scheduled_date := some (some 1) } }

/-- A ledger row with a discount exceeding its fee amount (net −10),
scheduled at the midnight of day 1. -/
def sampleLateRow : Sft :=
  { discount := some 10
    fee_type := some { id := 3, name := "Late", default_amount := 0
                       scheduled_date := some (some 86400000) } }

/-! ## Helper lemmas -/

/-- A left fold accumulating `+ f x` from `a` is `a` plus the mapped sum. -/
lemma foldl_add_eq_sum {α : Type} (f : α → ℚ) :
    ∀ (l : List α) (a : ℚ), l.foldl (fun s x => s + f x) a = a + (l.map f).sum := by
  intro l
  induction l with
  | nil => intro a; simp
  | cons x xs ih => intro a; simp [List.foldl_cons, ih]; ring

/-- The `sum + amount - discount` fold of the two `total_fees`
computations, in mapped-sum form. -/
lemma foldl_amount_sub_eq_sum {α : Type} (g h : α → ℚ) :
    ∀ (l : List α) (a : ℚ),
      l.foldl (fun s x => s + g x - h x) a = a + (l.map (fun x => g x - h x)).sum := by
  intro l
  induction l with
  | nil => intro a; simp
  | cons x xs ih => intro a; simp [List.foldl_cons, ih]; ring

/-- Summing an `if p then f else 0` map equals summing `f` over the
filtered list. -/
lemma sum_map_ite_eq_sum_filter {α : Type} (p : α → Bool) (f : α → ℚ) :
    ∀ l : List α,
      (l.map (fun x => if p x then f x else 0)).sum = ((l.filter p).map f).sum := by
  intro l
  induction l with
  | nil => simp
  | cons x xs ih =>
    by_cases hx : p x <;> simp [List.filter_cons, hx, ih]

/-- With pairwise-distinct ids, `find?` by a member's id returns that
member. -/
lemma find_of_mem_nodup (cfts : List FeeTypeR) (ft : FeeTypeR)
    (hmem : ft ∈ cfts) (hids : (cfts.map FeeTypeR.id).Nodup) :
    cfts.find? (fun x => x.id == ft.id) = some ft := by
  induction cfts with
  | nil => cases hmem
  | cons c cs ih =>
    rcases List.mem_cons.mp hmem with hc | hc
    · subst hc
      simp [List.find?_cons]
    · have hcid : c.id ≠ ft.id := by
        intro h
        have : c.id ∈ cs.map FeeTypeR.id := h ▸ List.mem_map_of_mem FeeTypeR.id hc
        exact (List.nodup_cons.mp hids).1 this
      have := ih hc (List.nodup_cons.mp hids).2
      simp [List.find?_cons, hcid, this]

/-! ## Claim C2 — Status Classifier -/

/-- C2 counterexample: the claim's ε = 0.01 tolerance on the paid
comparison is absent from both copies of `getDynamicStatus`. At
basis = 1000 and totalPaid = 999.995 the claim's rule 2
(`totalPaid ≥ basis − ε`) applies and demands `paid`, but both code
variants return `partially_paid` because they compare `paid >= fees`
exactly. -/
theorem getDynamicStatus_no_epsilon_counterexample :
    (999995/1000 : ℚ) ≥ 1000 - 1/100 ∧
    getDynamicStatus 1000 (999995/1000) = Status.partially_paid ∧
    getDynamicStatusV2 1000 (999995/1000) = Status.partially_paid ∧
    classifySpec 1000 (999995/1000) = Status.paid := by
  refine ⟨by norm_num, ?_, ?_, ?_⟩ <;>
    norm_num [getDynamicStatus, getDynamicStatusV2, classifySpec]

/-- C2 amended: `getDynamicStatus` evaluates its rules in order with no
epsilon on the paid comparisons — if the basis is ≤ 0 (≤ 0.009 in the
stackblitz copy) it returns `paid` when totalPaid > 0 and `no_fees_due`
otherwise; else if totalPaid ≥ basis it returns `paid`; else if
totalPaid > 0 it returns `partially_paid`; else `unpaid`. The claim's
five example values all hold. -/
theorem getDynamicStatus_rules (b p : ℚ) :
    (b ≤ 0 → getDynamicStatus b p = (if p > 0 then Status.paid else Status.no_fees_due)) ∧
    (0 < b → b ≤ p → getDynamicStatus b p = Status.paid) ∧
    (0 < b → 0 < p → p < b → getDynamicStatus b p = Status.partially_paid) ∧
    (0 < b → p ≤ 0 → getDynamicStatus b p = Status.unpaid) ∧
    (b ≤ 9/1000 → getDynamicStatusV2 b p = (if p > 0 then Status.paid else Status.no_fees_due)) ∧
    (9/1000 < b → b ≤ p → getDynamicStatusV2 b p = Status.paid) ∧
    (9/1000 < b → 0 < p → p < b → getDynamicStatusV2 b p = Status.partially_paid) ∧
    (9/1000 < b → p ≤ 0 → getDynamicStatusV2 b p = Status.unpaid) ∧
    getDynamicStatus 0 0 = Status.no_fees_due ∧
    getDynamicStatus 0 50 = Status.paid ∧
    getDynamicStatus 1000 1000 = Status.paid ∧
    getDynamicStatus 1000 400 = Status.partially_paid ∧
    getDynamicStatus 1000 0 = Status.unpaid := by
  refine ⟨?_, ?_, ?_, ?_, ?_, ?_, ?_, ?_, ?_, ?_, ?_, ?_, ?_⟩
  · intro h1; simp [getDynamicStatus, h1]
  · intro h1 h2
    simp [getDynamicStatus, not_le.mpr h1, ge_iff_le, h2]
  · intro h1 h2 h3
    simp [getDynamicStatus, not_le.mpr h1, ge_iff_le, not_le.mpr h3, h2, h3]
  · intro h1 h2
    have hpb : ¬ b ≤ p := not_le.mpr (lt_of_le_of_lt h2 h1)
    simp [getDynamicStatus, not_le.mpr h1, ge_iff_le, hpb, not_lt.mpr h2]
  · intro h1; simp [getDynamicStatusV2, h1]
  · intro h1 h2
    simp [getDynamicStatusV2, not_le.mpr h1, ge_iff_le, h2]
  · intro h1 h2 h3
    simp [getDynamicStatusV2, not_le.mpr h1, ge_iff_le, not_le.mpr h3, h2, h3]
  · intro h1 h2
    have hpb : ¬ b ≤ p := not_le.mpr (lt_of_le_of_lt h2 (lt_trans (by norm_num) h1))
    simp [getDynamicStatusV2, not_le.mpr h1, ge_iff_le, hpb, not_lt.mpr h2]
  all_goals norm_num [getDynamicStatus]

/-- C2 witness: the amended rule theorem applied at basis 1000,
paid 400. -/
theorem getDynamicStatus_rules_witness :
    getDynamicStatus 1000 400 = Status.partially_paid :=
  (getDynamicStatus_rules 1000 400).2.2.1 (by norm_num) (by norm_num) (by norm_num)

/-! ## Claims C4 and C5 — Due-Amount Calculator -/

/-- `startOfDay` in division form. -/
lemma startOfDay_eq_mul_ediv (t : Timestamp) :
    startOfDay t = msPerDay * (t / msPerDay) := by
  have h := Int.emod_def t msPerDay
  simp only [startOfDay, h]
  ring

/-- `startOfDay` is monotone. -/
lemma startOfDay_mono {d1 d2 : Timestamp} (h : d1 ≤ d2) :
    startOfDay d1 ≤ startOfDay d2 := by
  rw [startOfDay_eq_mul_ediv, startOfDay_eq_mul_ediv]
  have hpos : (0 : Int) < msPerDay := by norm_num [msPerDay]
  exact mul_le_mul_of_nonneg_left (Int.ediv_le_ediv hpos h) (le_of_lt hpos)

/-- For a timestamp at a day boundary, the code's comparison against the
midnight-normalized reference coincides with the date-only comparison. -/
lemma le_startOfDay_iff_dayOf_le {t ref : Timestamp} (h : t % msPerDay = 0) :
    t ≤ startOfDay ref ↔ dayOf t ≤ dayOf ref := by
  have hpos : (0 : Int) < msPerDay := by norm_num [msPerDay]
  have ht : t = msPerDay * (t / msPerDay) := by
    have hd := Int.emod_def t msPerDay
    rw [h] at hd
    linarith
  constructor
  · intro hle
    have h2 : t / msPerDay ≤ startOfDay ref / msPerDay := Int.ediv_le_ediv hpos hle
    rw [startOfDay_eq_mul_ediv, Int.mul_ediv_cancel_left _ (ne_of_gt hpos)] at h2
    simpa [dayOf] using h2
  · intro hle
    have hle : t / msPerDay ≤ ref / msPerDay := by simpa [dayOf] using hle
    rw [startOfDay_eq_mul_ediv]
    calc t = msPerDay * (t / msPerDay) := ht
    _ ≤ msPerDay * (ref / msPerDay) :=
        mul_le_mul_of_nonneg_left hle (le_of_lt hpos)

/-- One row's due contribution, phrased through the decidable dueness
test. -/
lemma dueContribution_eq_ite (ref : Timestamp) (sft : Sft) :
    dueContribution (startOfDay ref) sft =
      if sft.isDueAt ref then sft.netFeeAmount else 0 := by
  rcases sft with ⟨d, ft⟩
  cases ft with
  | none => simp [dueContribution, Sft.isDueAt]
  | some fee =>
    rcases fee with ⟨i, n, a, sd⟩
    match sd with
    | none => simp [dueContribution, Sft.isDueAt]
    | some none => simp [dueContribution, Sft.isDueAt]
    | some (some t) =>
      by_cases hle : t ≤ startOfDay ref <;>
        simp [dueContribution, Sft.isDueAt, hle]

/-- `computeDue` in filtered-sum form. -/
lemma computeDue_eq_sum_filter (sfts : List Sft) (ref : Timestamp) :
    computeDue sfts ref =
      ((sfts.filter (fun sft => sft.isDueAt ref)).map Sft.netFeeAmount).sum := by
  rw [computeDue, foldl_add_eq_sum (dueContribution (startOfDay ref)) sfts 0, zero_add]
  rw [← sum_map_ite_eq_sum_filter (fun sft => sft.isDueAt ref) Sft.netFeeAmount sfts]
  congr 1
  exact List.map_congr_left (fun sft _ => dueContribution_eq_ite ref sft)

/-- A row due under the date-only reading iff due under the code's
comparison, provided the parsed scheduled timestamp sits at a day
boundary. -/
lemma isDueAt_eq_isDueAtSpec_of_midnight (ref : Timestamp) (sft : Sft)
    (h : ∀ fee t, sft.fee_type = some fee →
      fee.scheduled_date = some (some t) → t % msPerDay = 0) :
    sft.isDueAt ref = sft.isDueAtSpec ref := by
  rcases sft with ⟨d, ft⟩
  cases ft with
  | none => rfl
  | some fee =>
    rcases fee with ⟨i, n, a, sd⟩
    match sd with
    | none => rfl
    | some none => rfl
    | some (some t) =>
      have hmid : t % msPerDay = 0 := h _ t rfl rfl
      simp only [Sft.isDueAt, Sft.isDueAtSpec]
      exact decide_eq_decide.mpr (le_startOfDay_iff_dayOf_le hmid)

/-- C4 counterexample: `computeDue` does not perform a date-only
comparison. A fee of net 50 whose `scheduled_date` parses to 1 ms past
midnight of day 0, evaluated at reference time 5 ms past midnight of
day 0, falls on the same calendar day as the reference
(`dayOf 1 ≤ dayOf 5`), so the claim demands its inclusion (sum 50); the
code compares the raw timestamp against the midnight-normalized
reference (`1 ≤ 0` fails) and returns 0. -/
theorem computeDue_not_date_only_counterexample :
    dayOf 1 ≤ dayOf 5 ∧
    computeDue [sampleMorningRow] 5 = 0 ∧
    computeDueSpec [sampleMorningRow] 5 = 50 := by
  refine ⟨by norm_num [dayOf, msPerDay], ?_, ?_⟩
  · norm_num [computeDue, dueContribution, startOfDay, msPerDay, sampleMorningRow]
  · norm_num [computeDueSpec, Sft.isDueAtSpec, dayOf, msPerDay, Sft.netFeeAmount,
      Sft.discountVal, sampleMorningRow]

/-- C4 amended: `computeDue` returns the sum of net amounts over exactly
those rows whose fee type has a `scheduled_date` parsing to a timestamp
`≤` the *start of the reference day* (rows with no or unparseable
`scheduled_date` contribute nothing); this agrees with the claim's
date-only comparison whenever every parsed scheduled timestamp lies at a
day boundary. -/
theorem computeDue_sum_of_due (sfts : List Sft) (ref : Timestamp)
    (hmid : ∀ sft ∈ sfts, ∀ fee t, sft.fee_type = some fee →
      fee.scheduled_date = some (some t) → t % msPerDay = 0) :
    computeDue sfts ref =
      ((sfts.filter (fun sft => sft.isDueAt ref)).map Sft.netFeeAmount).sum ∧
    computeDue sfts ref = computeDueSpec sfts ref := by
  refine ⟨computeDue_eq_sum_filter sfts ref, ?_⟩
  rw [computeDue_eq_sum_filter, computeDueSpec]
  have hfe : sfts.filter (fun sft => sft.isDueAt ref) =
      sfts.filter (fun sft => sft.isDueAtSpec ref) :=
    List.filter_congr (fun sft hs => isDueAt_eq_isDueAtSpec_of_midnight ref sft
      (hmid sft hs))
  rw [hfe]

/-- C4 witness: the amended theorem at one row scheduled exactly at the
midnight of day 1 (timestamp 86400000) and reference inside day 1. -/
theorem computeDue_sum_of_due_witness :
    computeDue [sampleTermRow] 86400005 = computeDueSpec [sampleTermRow] 86400005 :=
  (computeDue_sum_of_due [sampleTermRow] 86400005 (by
    intro sft hs fee t hft hsd
    simp only [List.mem_singleton] at hs
    subst hs
    simp only [sampleTermRow, Option.some.injEq] at hft
    subst hft
    simp only [Option.some.injEq] at hsd
    norm_num [← hsd, msPerDay])).2

/-- C5 counterexample: with an unvalidated discount exceeding the fee
amount (net −10), the currently-due sum *decreases* as the reference
date advances past the scheduled date: the claim's monotonicity fails
for such lists. -/
theorem computeDue_not_monotone_counterexample :
    (0 : Timestamp) ≤ 86400000 ∧
    computeDue [sampleLateRow] 86400000 < computeDue [sampleLateRow] 0 := by
  constructor
  · norm_num
  · norm_num [computeDue, dueContribution, startOfDay, msPerDay, Sft.netFeeAmount,
      Sft.discountVal, sampleLateRow]

/-- C5 amended: for a fixed list of rows whose net amounts are all
non-negative (every discount within its fee amount), `computeDue` is
monotonically non-decreasing in the reference date. -/
theorem computeDue_monotone (sfts : List Sft) (d1 d2 : Timestamp)
    (hd : d1 ≤ d2) (hnet : ∀ sft ∈ sfts, 0 ≤ sft.netFeeAmount) :
    computeDue sfts d1 ≤ computeDue sfts d2 := by
  rw [computeDue, computeDue, foldl_add_eq_sum, foldl_add_eq_sum, zero_add, zero_add]
  apply List.sum_le_sum
  intro sft hs
  have hsd : startOfDay d1 ≤ startOfDay d2 := startOfDay_mono hd
  rcases sft with ⟨d, ft⟩
  cases ft with
  | none => simp [dueContribution]
  | some fee =>
    rcases fee with ⟨i, n, a, sd⟩
    match sd with
    | none => simp [dueContribution]
    | some none => simp [dueContribution]
    | some (some t) =>
      simp only [dueContribution]
      by_cases h1 : t ≤ startOfDay d1
      · rw [if_pos h1, if_pos (le_trans h1 hsd)]
      · rw [if_neg h1]
        by_cases h2 : t ≤ startOfDay d2
        · rw [if_pos h2]; exact hnet _ hs
        · rw [if_neg h2]

/-- C5 witness: the monotonicity theorem at one non-negative-net row and
the concrete reference dates 0 and 86400000. -/
theorem computeDue_monotone_witness :
    computeDue [sampleTermRow] 0 ≤ computeDue [sampleTermRow] 86400000 :=
  computeDue_monotone [sampleTermRow] 0 86400000 (by norm_num)
    (by
      intro sft hs
      simp only [List.mem_singleton] at hs
      subst hs
      norm_num [Sft.netFeeAmount, Sft.discountVal, sampleTermRow])

/-! ## Claim C10 — Payment Ledger Aggregator -/

/-- The fold computing `totalPaid` is the mapped sum. -/
lemma totalPaidOf_eq_sum (ps : List Payment) :
    totalPaidOf ps = (ps.map Payment.amount_paid).sum := by
  rw [totalPaidOf, foldl_add_eq_sum Payment.amount_paid ps 0, zero_add]

/-- The descending-date comparator of `handleExport` is transitive. -/
lemma paymentDesc_trans : ∀ a b c : Payment,
    (fun a b : Payment => decide (b.date ≤ a.date)) a b = true →
    (fun a b : Payment => decide (b.date ≤ a.date)) b c = true →
    (fun a b : Payment => decide (b.date ≤ a.date)) a c = true := by
  intro a b c hab hbc
  simp only [decide_eq_true_eq] at *
  exact le_trans hbc hab

/-- The descending-date comparator of `handleExport` is total. -/
lemma paymentDesc_total : ∀ a b : Payment,
    ((fun a b : Payment => decide (b.date ≤ a.date)) a b ||
     (fun a b : Payment => decide (b.date ≤ a.date)) b a) = true := by
  intro a b
  rcases le_total a.date b.date with h | h <;> simp [h]

/-- C10 confirmed: `aggregatePayments` returns the sum of `amount_paid`
as `totalPaid`; on the empty list it returns exactly
`{totalPaid := 0, lastPayment := none}`; and any returned `lastPayment`
is a member of the list whose date is maximal, one existing whenever the
list is non-empty. -/
theorem aggregatePayments_correct (ps : List Payment) :
    (aggregatePayments ps).totalPaid = (ps.map Payment.amount_paid).sum ∧
    (ps = [] → aggregatePayments ps = { totalPaid := 0, lastPayment := none }) ∧
    (∀ p, (aggregatePayments ps).lastPayment = some p →
      p ∈ ps ∧ ∀ q ∈ ps, q.date ≤ p.date) ∧
    (ps ≠ [] → ∃ p, (aggregatePayments ps).lastPayment = some p) := by
  refine ⟨totalPaidOf_eq_sum ps, ?_, ?_, ?_⟩
  · intro h; subst h; rfl
  · intro p hp
    match ps, hp with
    | a :: as, hp =>
      simp only [aggregatePayments, lastPaymentOf] at hp
      have hperm := List.mergeSort_perm (a :: as) (fun a b : Payment => decide (b.date ≤ a.date))
      have hsorted := List.sorted_mergeSort paymentDesc_trans paymentDesc_total (a :: as)
      match hL : (a :: as).mergeSort (fun a b : Payment => decide (b.date ≤ a.date)), hp with
      | p0 :: t, hp =>
        rw [hL] at hperm hsorted
        simp only [List.head?_cons, Option.some.injEq] at hp
        subst hp
        constructor
        · exact hperm.mem_iff.mp (List.mem_cons_self _ _)
        · intro q hq
          have hq2 : q ∈ p0 :: t := hperm.mem_iff.mpr hq
          rcases List.mem_cons.mp hq2 with h | h
          · subst h; exact le_refl _
          · have := (List.pairwise_cons.mp hsorted).1 q h
            simpa using this
  · intro hne
    match ps, hne with
    | a :: as, _ =>
      simp only [aggregatePayments, lastPaymentOf]
      have hperm := List.mergeSort_perm (a :: as) (fun a b : Payment => decide (b.date ≤ a.date))
      match hL : (a :: as).mergeSort (fun a b : Payment => decide (b.date ≤ a.date)) with
      | [] => rw [hL] at hperm; exact absurd hperm.symm (by simp)
      | p0 :: t => exact ⟨p0, rfl⟩

/-- C10 witness: the aggregator theorem applied to a concrete two-payment
list: the empty-list clause at `[]` and the last-payment clause at the
head of the sorted result. -/
theorem aggregatePayments_correct_witness :
    aggregatePayments [] = { totalPaid := 0, lastPayment := none } ∧
    ∃ p, (aggregatePayments
      [{ date := 10, amount_paid := 3000, mode_of_payment := "cash", receipt_number := "R-1" },
       { date := 20, amount_paid := 2000, mode_of_payment := "upi", receipt_number := "R-2" }]).lastPayment = some p :=
  ⟨(aggregatePayments_correct []).2.1 rfl,
   (aggregatePayments_correct _).2.2.2 (by simp)⟩

/-! ## Claim C3 — totalAssigned is the sum of net amounts -/

/-- `totalFeesOf` in mapped-sum form over the filtered class fee types. -/
lemma totalFeesOf_eq_sum (cfts : List FeeTypeR) (sel : List Nat) (adjs : Adjustments) :
    totalFeesOf cfts sel adjs =
      ((cfts.filter (fun ft => sel.contains ft.id)).map
        (fun ft => ft.default_amount - discountFor adjs ft.id)).sum := by
  rw [totalFeesOf,
    foldl_amount_sub_eq_sum FeeTypeR.default_amount (fun ft => discountFor adjs ft.id)
      (cfts.filter (fun ft => sel.contains ft.id)) 0, zero_add]

/-- The nets of the inserted `feeLinks` are the selection's nets. -/
lemma mkFeeLinks_map_net (sid sch : Nat) (cfts : List FeeTypeR) (sel : List Nat)
    (adjs : Adjustments) :
    (mkFeeLinks sid sch cfts sel adjs).map FeeLink.net = sel.map (selectionNet cfts adjs) := by
  rw [mkFeeLinks, List.map_map]
  apply List.map_congr_left
  intro i _
  simp only [Function.comp_apply, FeeLink.net, selectionNet, Option.getD_some]

/-- With a duplicate-free selection drawn from a duplicate-free catalog,
the ids of the selected catalog entries are a permutation of the
selection. -/
lemma filter_map_id_perm (cfts : List FeeTypeR) (sel : List Nat)
    (hsel : sel.Nodup) (hids : (cfts.map FeeTypeR.id).Nodup)
    (hsub : ∀ i ∈ sel, i ∈ cfts.map FeeTypeR.id) :
    ((cfts.filter (fun ft => sel.contains ft.id)).map FeeTypeR.id).Perm sel := by
  apply List.perm_of_nodup_nodup_toFinset_eq
  · exact ((List.filter_sublist cfts).map FeeTypeR.id).nodup hids
  · exact hsel
  · ext i
    simp only [List.mem_toFinset, List.mem_map, List.mem_filter]
    constructor
    · rintro ⟨ft, ⟨hmem, hcont⟩, rfl⟩
      simpa using hcont
    · intro hi
      obtain ⟨ft, hft, hid⟩ := List.mem_map.mp (hsub i hi)
      exact ⟨ft, ⟨hft, by simp [hid, hi]⟩, hid⟩

/-- Under the same hypotheses, `totalFeesOf` is the sum of the
selection's nets. -/
lemma totalFeesOf_eq_sum_selection (cfts : List FeeTypeR) (sel : List Nat)
    (adjs : Adjustments) (hsel : sel.Nodup) (hids : (cfts.map FeeTypeR.id).Nodup)
    (hsub : ∀ i ∈ sel, i ∈ cfts.map FeeTypeR.id) :
    totalFeesOf cfts sel adjs = (sel.map (selectionNet cfts adjs)).sum := by
  rw [totalFeesOf_eq_sum]
  have hstep : (cfts.filter (fun ft => sel.contains ft.id)).map
      (fun ft => ft.default_amount - discountFor adjs ft.id) =
      (cfts.filter (fun ft => sel.contains ft.id)).map
        (fun ft => selectionNet cfts adjs ft.id) := by
    apply List.map_congr_left
    intro ft hft
    have hmem : ft ∈ cfts := List.mem_of_mem_filter hft
    rw [selectionNet, find_of_mem_nodup cfts ft hmem hids]
  have hmm : ((cfts.filter (fun ft => sel.contains ft.id)).map FeeTypeR.id).map
      (selectionNet cfts adjs) =
      (cfts.filter (fun ft => sel.contains ft.id)).map
        (fun ft => selectionNet cfts adjs ft.id) := by
    rw [List.map_map]
    rfl
  rw [hstep, ← hmm]
  exact ((filter_map_id_perm cfts sel hsel hids hsub).map (selectionNet cfts adjs)).sum_eq

/-- C3 confirmed: for a selection drawn from the class fee types (both
duplicate-free) and in-bounds discounts, `resolveAssignments` returns
`totalAssigned` equal to the sum of `assigned_amount − discount` over the
resolved assignments, and 0 for the empty selection. -/
theorem resolveAssignments_totalAssigned (sid sch : Nat) (cfts : List FeeTypeR)
    (sel : List Nat) (adjs : Adjustments)
    (hsel : sel.Nodup) (hids : (cfts.map FeeTypeR.id).Nodup)
    (hsub : ∀ i ∈ sel, i ∈ cfts.map FeeTypeR.id)
    (hbounds : ∀ l ∈ (resolveAssignments sid sch cfts sel adjs).assignments,
      0 ≤ l.discount ∧ l.discount ≤ l.assigned_amount.getD 0) :
    (resolveAssignments sid sch cfts sel adjs).totalAssigned =
      ((resolveAssignments sid sch cfts sel adjs).assignments.map FeeLink.net).sum ∧
    (sel = [] → (resolveAssignments sid sch cfts sel adjs).totalAssigned = 0) := by
  constructor
  · show totalFeesOf cfts sel adjs = ((mkFeeLinks sid sch cfts sel adjs).map FeeLink.net).sum
    rw [mkFeeLinks_map_net, totalFeesOf_eq_sum_selection cfts sel adjs hsel hids hsub]
  · intro h
    subst h
    show totalFeesOf cfts [] adjs = 0
    simp [totalFeesOf]

/-- C3 witness: the theorem at the spec §8 scenario — Fee A 5000 with a
500 discount and Fee B 2000 resolve to totalAssigned 6500, the sum of the
two net amounts. -/
theorem resolveAssignments_totalAssigned_witness :
    (resolveAssignments 1 1 sampleClassFees [100, 200] sampleAdjs).totalAssigned =
      ((resolveAssignments 1 1 sampleClassFees [100, 200] sampleAdjs).assignments.map
        FeeLink.net).sum ∧
    (resolveAssignments 1 1 sampleClassFees [100, 200] sampleAdjs).totalAssigned = 6500 := by
  constructor
  · exact (resolveAssignments_totalAssigned 1 1 sampleClassFees [100, 200] sampleAdjs
      (by simp) (by simp [sampleClassFees])
      (by intro i hi; fin_cases hi <;> simp [sampleClassFees])
      (by
        intro l hl
        simp only [resolveAssignments, mkFeeLinks, sampleClassFees, sampleAdjs,
          List.map_cons, List.map_nil, List.mem_cons, List.not_mem_nil, or_false] at hl
        rcases hl with h | h <;> subst h <;>
          norm_num [discountFor, List.lookup,
            show ((100 : Nat) == 100) = true from rfl,
            show ((200 : Nat) == 100) = false from rfl])).1
  · norm_num [resolveAssignments, totalFeesOf, sampleClassFees, sampleAdjs,
      discountFor, List.lookup,
      show ((100 : Nat) == 100) = true from rfl,
      show ((200 : Nat) == 100) = false from rfl]

/-! ## Claim C6 — selections outside the class fee types -/

/-- C6 counterexample: there is no `InvalidSelectionError` anywhere in
the code. Selecting id 7 against an *empty* class fee-type set succeeds
and inserts an assignment row for id 7 with `assigned_amount = 0` (the
`find(...)?.default_amount || 0` fallback); it contributes nothing to
`totalAssigned`. -/
theorem resolveAssignments_no_invalid_selection_counterexample :
    (resolveAssignments 1 1 [] [7] []).assignments =
      [{ student_id := 1, fee_type_id := 7, school_id := some 1,
         assigned_amount := some 0, discount := 0, discount_description := none }] ∧
    (resolveAssignments 1 1 [] [7] []).totalAssigned = 0 :=
  ⟨rfl, rfl⟩

/-- C6 amended: a selected `fee_type_id` absent from the class fee types
is not rejected — `resolveAssignments` silently produces an assignment
for it with `assigned_amount = 0`, and `totalAssigned` is unchanged from
resolving only the selections that are present in the class fee types. -/
theorem resolveAssignments_unknown_id_assigned_zero
    (sid sch : Nat) (cfts : List FeeTypeR) (sel : List Nat) (adjs : Adjustments)
    (i : Nat) (hi : i ∈ sel) (hni : i ∉ cfts.map FeeTypeR.id) :
    (∃ l ∈ (resolveAssignments sid sch cfts sel adjs).assignments,
      l.fee_type_id = i ∧ l.assigned_amount = some 0) ∧
    (resolveAssignments sid sch cfts sel adjs).totalAssigned =
      (resolveAssignments sid sch cfts
        (sel.filter (fun j => (cfts.map FeeTypeR.id).contains j)) adjs).totalAssigned := by
  constructor
  · have hfind : cfts.find? (fun ft => ft.id == i) = none := by
      rw [List.find?_eq_none]
      intro ft hft
      simp only [beq_iff_eq]
      intro h
      exact hni (h ▸ List.mem_map_of_mem FeeTypeR.id hft)
    refine ⟨_, List.mem_map_of_mem _ hi, rfl, ?_⟩
    simp only [hfind]
  · show totalFeesOf cfts sel adjs = totalFeesOf cfts _ adjs
    rw [totalFeesOf, totalFeesOf]
    have hfe : cfts.filter (fun ft => sel.contains ft.id) =
        cfts.filter (fun ft =>
          (sel.filter (fun j => (cfts.map FeeTypeR.id).contains j)).contains ft.id) := by
      apply List.filter_congr
      intro ft hft
      have h1 : ft.id ∈ cfts.map FeeTypeR.id := List.mem_map_of_mem FeeTypeR.id hft
      by_cases hm : ft.id ∈ sel
      · have h2 : ft.id ∈ sel.filter (fun j => (cfts.map FeeTypeR.id).contains j) :=
          List.mem_filter.mpr ⟨hm, by simpa using h1⟩
        simp [hm, h2]
        exact ⟨ft, hft, rfl⟩
      · have h2 : ft.id ∉ sel.filter (fun j => (cfts.map FeeTypeR.id).contains j) :=
          fun h => hm (List.mem_of_mem_filter h)
        simp [hm, h2]
    rw [hfe]

/-- C6 witness: the amended theorem at the concrete out-of-catalog
selection `[7]` against the empty class fee-type set. -/
theorem resolveAssignments_unknown_id_assigned_zero_witness :
    ∃ l ∈ (resolveAssignments 1 1 [] [7] []).assignments,
      l.fee_type_id = 7 ∧ l.assigned_amount = some 0 :=
  (resolveAssignments_unknown_id_assigned_zero 1 1 [] [7] [] 7
    (by simp) (by simp)).1

/-! ## Claim C7 — discounts are not range-validated -/

/-- C7 counterexample: there is no `InvalidDiscountError` anywhere in the
code. A discount of 200 on a fee of amount 100 is accepted — the
resolver returns an assignment with that discount and a *negative* net
(−100), instead of failing. -/
theorem resolveAssignments_no_invalid_discount_counterexample :
    (200 : ℚ) > 100 ∧
    (resolveAssignments 1 1 [sampleFee] [1] sampleOverAdjs).assignments.map
      FeeLink.discount = [200] ∧
    (resolveAssignments 1 1 [sampleFee] [1] sampleOverAdjs).assignments.map
      FeeLink.net = [-100] ∧
    (resolveAssignments 1 1 [sampleFee] [1] sampleOverAdjs).totalAssigned = -100 := by
  refine ⟨by norm_num, ?_, ?_, ?_⟩ <;>
    norm_num [resolveAssignments, mkFeeLinks, totalFeesOf, FeeLink.net,
      discountFor, List.lookup, sampleFee, sampleOverAdjs]

/-- C7 amended: `resolveAssignments` applies the discount with no range
validation: an unspecified (or unparseable) discount defaults to 0, a
discount equal to `assigned_amount` is accepted with net 0, and a
discount greater than `assigned_amount` is accepted as well, yielding a
negative net. -/
theorem resolveAssignments_discount_unvalidated (ft : FeeTypeR) (d : ℚ)
    (desc : String) (sid sch : Nat) :
    handleDiscountChange none = 0 ∧
    (resolveAssignments sid sch [ft] [ft.id] []).totalAssigned = ft.default_amount ∧
    (resolveAssignments sid sch [ft] [ft.id]
      [(ft.id, { discount := d, description := desc })]).totalAssigned =
      ft.default_amount - d ∧
    (d = ft.default_amount →
      (resolveAssignments sid sch [ft] [ft.id]
        [(ft.id, { discount := d, description := desc })]).totalAssigned = 0) := by
  refine ⟨rfl, ?_, ?_, ?_⟩
  · show totalFeesOf [ft] [ft.id] [] = ft.default_amount
    simp [totalFeesOf, discountFor]
  · show totalFeesOf [ft] [ft.id] _ = ft.default_amount - d
    simp [totalFeesOf, discountFor, List.lookup]
  · intro h
    show totalFeesOf [ft] [ft.id] _ = 0
    simp [totalFeesOf, discountFor, List.lookup, h]

/-- C7 witness: the amended theorem at `sampleFee` with a discount equal
to the full amount — accepted, net 0. -/
theorem resolveAssignments_discount_unvalidated_witness :
    (resolveAssignments 1 1 [sampleFee] [sampleFee.id]
      [(sampleFee.id, { discount := 100, description := "full waiver" })]).totalAssigned = 0 :=
  (resolveAssignments_discount_unvalidated sampleFee 100 "full waiver" 1 1).2.2.2
    (by norm_num [sampleFee])

/-! ## Claim C8 — assigned_amount snapshots -/

/-- C8 counterexample: the student-detail flow does not snapshot.
The assignment row in `sampleStore` was inserted by
`handleUpdateStudent`'s `newFeeLinks`, which carries no
`assigned_amount`; the net the detail page renders for it is joined from
the *current* catalog, so raising the catalog amount from 100 to 200
changes the displayed net from 100 to 200. -/
theorem detail_flow_net_not_snapshot_counterexample :
    sampleStore.student_fee_types.map FeeLink.assigned_amount = [none] ∧
    sampleStore.student_fee_types.map (detailRenderedNet sampleStore) = [100] ∧
    (updateFeeType sampleStore 1 "Tuition" none (some 200) none).student_fee_types.map
      (detailRenderedNet (updateFeeType sampleStore 1 "Tuition" none (some 200) none)) =
      [200] := by
  refine ⟨rfl, ?_, ?_⟩ <;>
    norm_num [sampleStore, mkNewFeeLinksDetail, detailRenderedNet, updateFeeType,
      discountFor, descriptionFor, List.lookup, List.find?]

/-- C8 amended: the registration flow does snapshot — each inserted
`feeLinks` row carries `assigned_amount` equal to the class fee type's
`default_amount` looked up at resolution time — and editing a catalog
fee type afterwards (`updateFeeType`) rewrites only the `fee_types`
table, leaving every stored assignment row, hence its `assigned_amount`
and its `assigned_amount − discount` net, unchanged. Rows inserted by
the student-detail flow, however, store no `assigned_amount` at all. -/
theorem registration_snapshot_catalog_frame
    (sid sch : Nat) (cfts : List FeeTypeR) (sel : List Nat) (adjs : Adjustments)
    (s : Store) (ftId : Nat) (nm : String) (d : Option String) (amt : Option ℚ)
    (af : Option String) :
    (∀ l ∈ mkFeeLinks sid sch cfts sel adjs, l.assigned_amount = some
      (match cfts.find? (fun ft => ft.id == l.fee_type_id) with
       | some ft => ft.default_amount
       | none => 0)) ∧
    (updateFeeType s ftId nm d amt af).student_fee_types = s.student_fee_types ∧
    (updateFeeType s ftId nm d amt af).student_fee_types.map FeeLink.net =
      s.student_fee_types.map FeeLink.net ∧
    (∀ l ∈ mkNewFeeLinksDetail sid sel adjs, l.assigned_amount = none) := by
  refine ⟨?_, rfl, rfl, ?_⟩
  · intro l hl
    obtain ⟨i, hi, rfl⟩ := List.mem_map.mp hl
    rfl
  · intro l hl
    obtain ⟨i, hi, rfl⟩ := List.mem_map.mp hl
    rfl

/-- C8 witness: the snapshot clause of the amended theorem at the
spec §8 catalog — the link inserted for Fee A records 5000, and a
catalog update touches no assignment row of `sampleStore`. -/
theorem registration_snapshot_catalog_frame_witness :
    ({ student_id := 5, fee_type_id := 100, school_id := some 1,
       assigned_amount := some 5000, discount := 500,
       discount_description := some "sibling" } : FeeLink).assigned_amount =
      some 5000 ∧
    (updateFeeType sampleStore 1 "Tuition" none (some 200) none).student_fee_types =
      sampleStore.student_fee_types := by
  constructor
  · have h := (registration_snapshot_catalog_frame 5 1 sampleClassFees [100] sampleAdjs
      sampleStore 1 "Tuition" none (some 200) none).1
      { student_id := 5, fee_type_id := 100, school_id := some 1,
        assigned_amount := some 5000, discount := 500,
        discount_description := some "sibling" }
      (by
        simp [mkFeeLinks, sampleClassFees, sampleAdjs, discountFor, descriptionFor,
          List.lookup, List.find?])
    rw [h]
    norm_num [sampleClassFees, List.find?]
  · exact (registration_snapshot_catalog_frame 5 1 sampleClassFees [100] sampleAdjs
      sampleStore 1 "Tuition" none (some 200) none).2.1

/-! ## Claim C9 — the persisted total_fees cache -/

/-- C9 counterexample, two ways. (1) A registration-page edit whose
selection contains an id absent from the class fee types (reachable: a
stale pre-selected id whose class link was removed) persists
`total_fees = 0` while the student's inserted rows sum to net −100.
(2) A student-detail update inserts rows with no `assigned_amount`, so
`total_fees = 100` while the rows' `assigned_amount − discount` sum
is 0. -/
theorem total_fees_cache_counterexample :
    ((handleSubmitEdit emptyLinksStore 5 1 "Asha" "7" 10 "2024-2025" [] [7]
      [(7, { discount := 100, description := "stale" })]).students.map
        StudentRow.total_fees) = [0] ∧
    (((handleSubmitEdit emptyLinksStore 5 1 "Asha" "7" 10 "2024-2025" [] [7]
      [(7, { discount := 100, description := "stale" })]).student_fee_types.filter
        (fun l => l.student_id == 5)).map FeeLink.net).sum = -100 ∧
    ((handleUpdateStudent emptyLinksStore 5 "Asha" "7" 10 "2024-2025" [sampleFee] [1]
      []).students.map StudentRow.total_fees) = [100] ∧
    (((handleUpdateStudent emptyLinksStore 5 "Asha" "7" 10 "2024-2025" [sampleFee] [1]
      []).student_fee_types.filter (fun l => l.student_id == 5)).map FeeLink.net).sum
      = 0 := by
  refine ⟨?_, ?_, ?_, ?_⟩ <;>
    norm_num [handleSubmitEdit, handleUpdateStudent, emptyLinksStore, sampleStore,
      sampleFee, totalFeesOf, detailTotalFees, mkFeeLinks, mkNewFeeLinksDetail,
      FeeLink.net, discountFor, descriptionFor, List.lookup, List.find?,
      List.filter]

/-- C9 amended: after a registration-page edit whose selection is drawn
from the class fee types (selection and catalog ids duplicate-free) on a
store whose existing rows for that student all carry the caller's
school id, the persisted `total_fees` of the edited student equals the
sum of `assigned_amount − discount` over that student's current
assignment rows. (Without the selection hypothesis, and for the
student-detail flow, the counterexample shows the equality fails.) -/
theorem handleSubmitEdit_total_fees (s : Store) (sid sch : Nat) (nm rn : String)
    (cid : Nat) (ay : String) (cfts : List FeeTypeR) (sel : List Nat)
    (adjs : Adjustments)
    (hsel : sel.Nodup) (hids : (cfts.map FeeTypeR.id).Nodup)
    (hsub : ∀ i ∈ sel, i ∈ cfts.map FeeTypeR.id)
    (hten : ∀ l ∈ s.student_fee_types, l.student_id = sid → l.school_id = some sch) :
    ∀ st ∈ (handleSubmitEdit s sid sch nm rn cid ay cfts sel adjs).students,
      st.id = sid → st.school_id = sch →
      st.total_fees =
        (((handleSubmitEdit s sid sch nm rn cid ay cfts sel adjs).student_fee_types.filter
          (fun l => l.student_id == sid)).map FeeLink.net).sum := by
  intro st hst hid hsch
  have hlinks : (handleSubmitEdit s sid sch nm rn cid ay cfts sel adjs).student_fee_types.filter
      (fun l => l.student_id == sid) = mkFeeLinks sid sch cfts sel adjs := by
    show ((s.student_fee_types.filter
        (fun l => !(l.student_id == sid && l.school_id == some sch))) ++
        mkFeeLinks sid sch cfts sel adjs).filter (fun l => l.student_id == sid) = _
    rw [List.filter_append]
    have hA : (s.student_fee_types.filter
        (fun l => !(l.student_id == sid && l.school_id == some sch))).filter
        (fun l => l.student_id == sid) = [] := by
      rw [List.filter_eq_nil_iff]
      intro l hl
      have hmem := List.mem_of_mem_filter hl
      have hq := List.of_mem_filter hl
      intro hp
      have hsid : l.student_id = sid := by simpa using hp
      have hs : l.school_id = some sch := hten l hmem hsid
      rw [hsid, hs] at hq
      simp at hq
    have hB : (mkFeeLinks sid sch cfts sel adjs).filter
        (fun l => l.student_id == sid) = mkFeeLinks sid sch cfts sel adjs := by
      rw [List.filter_eq_self]
      intro l hl
      obtain ⟨i, hi, rfl⟩ := List.mem_map.mp hl
      simp
    rw [hA, hB, List.nil_append]
  rw [hlinks, mkFeeLinks_map_net,
    ← totalFeesOf_eq_sum_selection cfts sel adjs hsel hids hsub]
  simp only [handleSubmitEdit] at hst
  obtain ⟨st0, hst0, rfl⟩ := List.mem_map.mp hst
  by_cases hcond : (st0.id == sid && st0.school_id == sch) = true
  · simp only [hcond, if_true]
  · rw [if_neg hcond] at hid hsch
    exact absurd (by simp [hid, hsch]) hcond

/-- C9 witness: the amended theorem at the spec §8 scenario on
`emptyLinksStore` — the persisted 6500 equals the sum of nets of the
freshly inserted rows. -/
theorem handleSubmitEdit_total_fees_witness :
    ({ id := 5, school_id := 1, name := "Asha", roll_no := "7", class_id := 10,
       academic_year := "2024-2025", total_fees := 6500 } : StudentRow).total_fees =
      (((handleSubmitEdit emptyLinksStore 5 1 "Asha" "7" 10 "2024-2025"
        sampleClassFees [100, 200] sampleAdjs).student_fee_types.filter
          (fun l => l.student_id == 5)).map FeeLink.net).sum :=
  handleSubmitEdit_total_fees emptyLinksStore 5 1 "Asha" "7" 10 "2024-2025"
    sampleClassFees [100, 200] sampleAdjs (by simp) (by simp [sampleClassFees])
    (by intro i hi; fin_cases hi <;> simp [sampleClassFees])
    (by intro l hl; simp [emptyLinksStore] at hl)
    _
    (by
      norm_num [handleSubmitEdit, emptyLinksStore, sampleStore, totalFeesOf,
        sampleClassFees, sampleAdjs, discountFor, List.lookup,
        show ((100 : Nat) == 100) = true from rfl,
        show ((200 : Nat) == 100) = false from rfl])
    rfl rfl

/-! ## Claim C1 — tenant scoping of reads and writes -/

/-- C1 failing input: the `sfms 2` master-ledger and record-payment
pages issue reads with no `school_id` filter and an insert carrying no
`school_id` at all. Against `crossStore` (all rows belong to school 2),
a caller from school 1 receives school 2's student and class rows from
`masterLedgerFetchStudents`, `masterLedgerFetchClasses`,
`recordPaymentFetchClasses` and `recordPaymentFetchStudents`, and the
payment insert stores a row with no tenant; only the registration page's
`fetchStudentsForSchool` (and the stackblitz ledger) are scoped and
correctly return nothing for school 1. -/
theorem tenant_scoping_violated :
    (∃ st ∈ masterLedgerFetchStudents crossStore, st.school_id ≠ 1) ∧
    (∃ c ∈ masterLedgerFetchClasses crossStore, c.school_id ≠ 1) ∧
    (∃ c ∈ recordPaymentFetchClasses crossStore, c.school_id ≠ 1) ∧
    (∃ st ∈ recordPaymentFetchStudents crossStore none, st.school_id ≠ 1) ∧
    ((recordPaymentInsert crossStore 99 6 0 100 "cash" "R-1" none).payments.map
      PaymentRow.school_id) = [none] ∧
    fetchStudentsForSchool crossStore 1 = [] ∧
    fetchStudentsAndDetails crossStore 1 none = [] := by
  refine ⟨?_, ?_, ?_, ?_, ?_, ?_, ?_⟩
  · exact ⟨{ id := 6, school_id := 2, name := "Eve", roll_no := "9", class_id := 20,
             academic_year := "2024-2025", total_fees := 0 },
           by simp [masterLedgerFetchStudents, crossStore], by norm_num⟩
  · exact ⟨{ id := 20, school_id := 2, name := "Other Class" },
           by simp [masterLedgerFetchClasses, crossStore], by norm_num⟩
  · exact ⟨{ id := 20, school_id := 2, name := "Other Class" },
           by simp [recordPaymentFetchClasses, crossStore], by norm_num⟩
  · exact ⟨{ id := 6, school_id := 2, name := "Eve", roll_no := "9", class_id := 20,
             academic_year := "2024-2025", total_fees := 0 },
           by simp [recordPaymentFetchStudents, crossStore], by norm_num⟩
  · rfl
  · rfl
  · rfl
